import Mathlib

/-!
Verification of `bin/run-google-java-format.py` from plume-lib.

The script is a sequential driver: it resolves two artifacts on disk
(downloading them when absent), invokes the google-java-format jar as a
subprocess over the command-line arguments, filters out flag-like
arguments, and invokes the fixup script as a subprocess over the
remaining file names.  We embed the script as a pure function from an
abstract `World` (the observable environment: which paths exist, file
modes, and the exit statuses the two subprocesses would return) to the
driver's exit status together with the ordered trace of its observable
effects (downloads, chmod, subprocess calls, printed messages).
-/

/-- Observable effects of the driver, in program order.
`call cmd` is a `subprocess.call(cmd)`; `download url dest` is a
`urllib.urlretrieve(url, dest)`; `chmod path newMode` is an
`os.chmod(path, newMode)`; `msg` is a `print(msg)`. -/
inductive Event where
  | download (url : String) (dest : String)
  | chmod (path : String) (newMode : Nat)
  | call (cmd : List String)
  | msg (text : String)
deriving DecidableEq, Repr

/-- Abstract environment the script runs in: which paths name existing
files (`os.path.isfile`), the mode bits `os.stat` reports for a path,
and the exit statuses the two subprocess invocations would return. -/
structure World where
  isFile : String → Bool
  mode : String → Nat
  formatterExit : Int
  fixupExit : Int

/-- Embedding of Python's `os.path.join(a, b)` for a relative second
component. -/
def joinPath (a b : String) : String := a ++ "/" ++ b

/-- Embedding of Python's `s.startswith(pre)`. -/
def pyStartswith (s pre : String) : Bool := pre.data.isPrefixOf s.data

/-- `gjf_jar_name` from line 24 of the script. -/
def gjf_jar_name : String := "google-java-format-1.0-all-deps.jar"

/-- Download URL of the formatter jar (line 32). -/
def gjfURL : String :=
  "https://github.com/google/google-java-format/releases/download/google-java-format-1.0/google-java-format-1.0-all-deps.jar"

/-- Download URL of the fixup script (line 39). -/
def fixupURL : String :=
  "https://raw.githubusercontent.com/mernst/plume-lib/master/bin/fixup-google-java-format.py"

/-- `fixup_py = os.path.join(script_dir, "fixup-google-java-format.py")`
(line 22). -/
def fixup_py (script_dir : String) : String :=
  joinPath script_dir "fixup-google-java-format.py"

/-- `stat.S_IXUSR` (owner execute bit, octal 0o100). -/
def S_IXUSR : Nat := 64

/-- `stat.S_IXGRP` (group execute bit, octal 0o10). -/
def S_IXGRP : Nat := 8

/-- `stat.S_IXOTH` (other execute bit, octal 0o1). -/
def S_IXOTH : Nat := 1

/-- The new mode computed on line 41:
`os.stat(fixup_py).st_mode | stat.S_IXUSR | stat.S_IXGRP | stat.S_IXOTH`. -/
def setExecBits (m : Nat) : Nat := m ||| S_IXUSR ||| S_IXGRP ||| S_IXOTH

/-- Resolution of `gjf_jar_path` (lines 26-32): probe
`script_dir/gjf_jar_name`, then `dirname(script_dir)/lib/gjf_jar_name`,
else download to `script_dir/gjf_jar_name`.  `parentDir` stands for
`os.path.dirname(script_dir)`.  Returns the resolved path and the trace
of effects. -/
def resolveJar (w : World) (script_dir parentDir : String) : String × List Event :=
  if w.isFile (joinPath script_dir gjf_jar_name) then
    (joinPath script_dir gjf_jar_name, [])
  else if w.isFile (joinPath (joinPath parentDir "lib") gjf_jar_name) then
    (joinPath (joinPath parentDir "lib") gjf_jar_name, [])
  else
    (joinPath script_dir gjf_jar_name,
     [Event.download gjfURL (joinPath script_dir gjf_jar_name)])

/-- Resolution of `fixup_py` (lines 34-41): if the file is absent,
download it and mark it executable.  Returns the resolved path and the
trace of effects. -/
def resolveFixup (w : World) (script_dir : String) : String × List Event :=
  if w.isFile (fixup_py script_dir) then
    (fixup_py script_dir, [])
  else
    (fixup_py script_dir,
     [Event.download fixupURL (fixup_py script_dir),
      Event.chmod (fixup_py script_dir) (setExecBits (w.mode (fixup_py script_dir)))])

/-- Usage message printed on line 50. -/
def usageMsg : String :=
  "run-google-java-format.py expects 1 or more filenames as arguments"

/-- Error message printed on line 69. -/
def fixupErrMsg : String := "Error when running fixup-google-java-format.py"

/-- The list comprehension on line 61:
`files = [f for f in files if not f.startswith("--")]`. -/
def filterFiles (files : List String) : List String :=
  files.filter (fun f => !(pyStartswith f "--"))

/-- The whole script (lines 19-70) as a function from the environment and
`sys.argv[1:]` to the process exit status and the trace of observable
effects.  The `debug` flag is the constant `False` (line 16), so the
debug-guarded prints never fire and are omitted.  The formatter's exit
status is read into `result` but the check on it is commented out
(lines 56-58), so it does not influence control flow. -/
def drive (w : World) (script_dir parentDir : String) (argv : List String) :
    Int × List Event :=
  let jarRes := resolveJar w script_dir parentDir
  let fixRes := resolveFixup w script_dir
  let preEvents := jarRes.2 ++ fixRes.2
  let files := argv
  if files = [] then
    (1, preEvents ++ [Event.msg usageMsg])
  else
    let fmtEvent :=
      Event.call (["java", "-jar", jarRes.1, "--replace", "--sort-imports=also"] ++ files)
    let files2 := filterFiles files
    if files2 = [] then
      (0, preEvents ++ [fmtEvent])
    else
      let fixEvent := Event.call (fixRes.1 :: files2)
      if w.fixupExit ≠ 0 then
        (w.fixupExit, preEvents ++ [fmtEvent, fixEvent, Event.msg fixupErrMsg])
      else
        (0, preEvents ++ [fmtEvent, fixEvent])

/-- Recognizes subprocess-invocation events. -/
def isCallEvent : Event → Bool
  | Event.call _ => true
  | _ => false

/-- Recognizes download events. -/
def isDownloadEvent : Event → Bool
  | Event.download _ _ => true
  | _ => false

/-- True when the trace contains at least one subprocess invocation. -/
def hasCall (es : List Event) : Bool := es.any isCallEvent

/-- True when the trace contains at least one download. -/
def hasDownload (es : List Event) : Bool := es.any isDownloadEvent

/-- Number of subprocess invocations in a trace. -/
def countCalls (es : List Event) : Nat := es.countP (fun e => isCallEvent e)

/-- The candidate directories probed for the formatter jar, in probe
order. -/
def jarCandidates (script_dir parentDir : String) : List String :=
  [joinPath script_dir gjf_jar_name,
   joinPath (joinPath parentDir "lib") gjf_jar_name]

-- Helper lemmas shared by several claims.

theorem resolveJar_fst_no_call (w : World) (sd pd : String) :
    hasCall (resolveJar w sd pd).2 = false := by
  unfold resolveJar
  split
  · rfl
  · split <;> rfl

theorem resolveFixup_no_call (w : World) (sd : String) :
    hasCall (resolveFixup w sd).2 = false := by
  unfold resolveFixup
  split <;> rfl

theorem resolveFixup_fst (w : World) (sd : String) :
    (resolveFixup w sd).1 = fixup_py sd := by
  unfold resolveFixup
  split <;> rfl

theorem countCalls_resolveJar (w : World) (sd pd : String) :
    countCalls (resolveJar w sd pd).2 = 0 := by
  unfold resolveJar
  split
  · rfl
  · split <;> rfl

theorem countCalls_resolveFixup (w : World) (sd : String) :
    countCalls (resolveFixup w sd).2 = 0 := by
  unfold resolveFixup
  split <;> rfl

/-- C5: the flag filter on line 61 is order-preserving — its output is a
subsequence of its input — and idempotent: filtering an already-filtered
list yields the same list. -/
theorem filterFiles_sublist_and_idempotent (xs : List String) :
    (filterFiles xs).Sublist xs ∧ filterFiles (filterFiles xs) = filterFiles xs := by
  constructor
  · exact List.filter_sublist xs
  · simp [filterFiles, List.filter_filter]

/-- A concrete environment where every probed path exists and the fixup
subprocess would exit with status 3. -/
def wTest : World :=
  { isFile := fun _ => true, mode := fun _ => 0, formatterExit := 7, fixupExit := 3 }

/-- A concrete environment where no probed path exists and both
subprocesses would exit with status 0. -/
def wNone : World :=
  { isFile := fun _ => false, mode := fun _ => 420, formatterExit := 0, fixupExit := 0 }

/-- A concrete environment where both subprocesses would exit with
status 0 and every probed path exists. -/
def wZero : World :=
  { isFile := fun _ => true, mode := fun _ => 0, formatterExit := 5, fixupExit := 0 }

/-- C1: whenever the fixup subprocess runs (the argument list and its
flag-filtered form are non-empty) and returns a non-zero status, the
driver prints the error message and exits with exactly that status,
whatever the formatter's status was (the theorem holds for every
`World`, hence for every formatter exit status). -/
theorem fixup_failure_propagates (w : World) (sd pd : String) (argv : List String)
    (hargv : argv ≠ []) (hfilt : filterFiles argv ≠ []) (hfix : w.fixupExit ≠ 0) :
    (drive w sd pd argv).1 = w.fixupExit ∧
      Event.msg fixupErrMsg ∈ (drive w sd pd argv).2 := by
  simp [drive, hargv, hfilt, hfix]

/-- Witness for `fixup_failure_propagates` at a concrete input. -/
theorem fixup_failure_propagates_witness :
    (drive wTest "/s" "/p" ["A.java"]).1 = 3 ∧
      Event.msg fixupErrMsg ∈ (drive wTest "/s" "/p" ["A.java"]).2 :=
  fixup_failure_propagates wTest "/s" "/p" ["A.java"]
    (by decide) (by decide) (by decide)

/-- C2: when the formatter subprocess exits non-zero but the fixup
subprocess exits zero, the driver exits 0, and the fixup step still runs
(its subprocess call appears in the trace). -/
theorem formatter_failure_tolerated (w : World) (sd pd : String) (argv : List String)
    (hargv : argv ≠ []) (hfilt : filterFiles argv ≠ [])
    (_hfmt : w.formatterExit ≠ 0) (hfix : w.fixupExit = 0) :
    (drive w sd pd argv).1 = 0 ∧
      Event.call (fixup_py sd :: filterFiles argv) ∈ (drive w sd pd argv).2 := by
  simp [drive, hargv, hfilt, hfix, resolveFixup_fst]

/-- Witness for `formatter_failure_tolerated` at a concrete input. -/
theorem formatter_failure_tolerated_witness :
    (drive wZero "/s" "/p" ["A.java"]).1 = 0 ∧
      Event.call (fixup_py "/s" :: filterFiles ["A.java"]) ∈
        (drive wZero "/s" "/p" ["A.java"]).2 :=
  formatter_failure_tolerated wZero "/s" "/p" ["A.java"]
    (by decide) (by decide) (by decide) rfl

/-- C3: with zero file arguments the driver prints the usage message,
exits with status 1, and starts no subprocess at all. -/
theorem no_args_usage_exit (w : World) (sd pd : String) :
    (drive w sd pd []).1 = 1 ∧
      Event.msg usageMsg ∈ (drive w sd pd []).2 ∧
      hasCall (drive w sd pd []).2 = false := by
  refine ⟨by simp [drive], by simp [drive], ?_⟩
  have hj := resolveJar_fst_no_call w sd pd
  have hf := resolveFixup_no_call w sd
  have htrace : (drive w sd pd []).2 =
      (resolveJar w sd pd).2 ++ (resolveFixup w sd).2 ++ [Event.msg usageMsg] := by
    simp [drive]
  rw [htrace]
  unfold hasCall at hj hf ⊢
  rw [List.any_append, List.any_append, hj, hf]
  rfl

theorem countCalls_append (a b : List Event) :
    countCalls (a ++ b) = countCalls a + countCalls b :=
  List.countP_append _ a b

theorem filterFiles_eq_nil_of_all_flags (xs : List String)
    (h : xs.all (fun a => pyStartswith a "--") = true) : filterFiles xs = [] := by
  induction xs with
  | nil => rfl
  | cons a t ih =>
    simp only [List.all_cons, Bool.and_eq_true] at h
    simp only [filterFiles, List.filter_cons, h.1, Bool.not_true, Bool.false_eq_true,
      if_false] at ih ⊢
    exact ih h.2

/-- C4: when every argument is flag-like (begins with `--`) and the
argument list is non-empty, the driver still invokes the formatter with
those arguments, exits with status 0, and the formatter call is the only
subprocess invocation — the fixup step never runs. -/
theorem flags_only_formatter_runs (w : World) (sd pd : String) (argv : List String)
    (hargv : argv ≠ []) (hflags : argv.all (fun a => pyStartswith a "--") = true) :
    (drive w sd pd argv).1 = 0 ∧
      Event.call (["java", "-jar", (resolveJar w sd pd).1, "--replace",
        "--sort-imports=also"] ++ argv) ∈ (drive w sd pd argv).2 ∧
      countCalls (drive w sd pd argv).2 = 1 := by
  have hfilt : filterFiles argv = [] := filterFiles_eq_nil_of_all_flags argv hflags
  refine ⟨by simp [drive, hargv, hfilt], by simp [drive, hargv, hfilt], ?_⟩
  have htrace : (drive w sd pd argv).2 =
      (resolveJar w sd pd).2 ++ (resolveFixup w sd).2 ++
        [Event.call (["java", "-jar", (resolveJar w sd pd).1, "--replace",
          "--sort-imports=also"] ++ argv)] := by
    simp [drive, hargv, hfilt]
  rw [htrace, countCalls_append, countCalls_append, countCalls_resolveJar,
    countCalls_resolveFixup]
  rfl

/-- Witness for `flags_only_formatter_runs` at a concrete input. -/
theorem flags_only_formatter_runs_witness :
    (drive wTest "/s" "/p" ["--help"]).1 = 0 ∧
      Event.call (["java", "-jar", (resolveJar wTest "/s" "/p").1, "--replace",
        "--sort-imports=also"] ++ ["--help"]) ∈ (drive wTest "/s" "/p" ["--help"]).2 ∧
      countCalls (drive wTest "/s" "/p" ["--help"]).2 = 1 :=
  flags_only_formatter_runs wTest "/s" "/p" ["--help"] (by decide) (by decide)

/-- C6: artifact resolution probes the candidate directories in order
and returns the first hit; whenever some candidate holds the artifact no
download occurs, and a download occurs exactly when no candidate does.
Stated for both the jar (two candidates, via `List.find?` on the probe
list) and the fixup script (one candidate). -/
theorem artifact_resolution_first_match (w : World) (sd pd p : String) :
    ((jarCandidates sd pd).find? w.isFile = some p →
      (resolveJar w sd pd).1 = p ∧ hasDownload (resolveJar w sd pd).2 = false) ∧
    ((jarCandidates sd pd).find? w.isFile = none →
      hasDownload (resolveJar w sd pd).2 = true) ∧
    (w.isFile (fixup_py sd) = true →
      (resolveFixup w sd).1 = fixup_py sd ∧
        hasDownload (resolveFixup w sd).2 = false) ∧
    (w.isFile (fixup_py sd) = false → hasDownload (resolveFixup w sd).2 = true) := by
  refine ⟨?_, ?_, ?_, ?_⟩
  · intro h
    by_cases h1 : w.isFile (joinPath sd gjf_jar_name)
    · rw [jarCandidates, List.find?_cons_of_pos _ h1] at h
      cases h
      simp [resolveJar, h1, hasDownload]
    · by_cases h2 : w.isFile (joinPath (joinPath pd "lib") gjf_jar_name)
      · rw [jarCandidates, List.find?_cons_of_neg _ (by simpa using h1),
          List.find?_cons_of_pos _ h2] at h
        cases h
        simp [resolveJar, h1, h2, hasDownload]
      · rw [jarCandidates, List.find?_cons_of_neg _ (by simpa using h1),
          List.find?_cons_of_neg _ (by simpa using h2)] at h
        simp at h
  · intro h
    by_cases h1 : w.isFile (joinPath sd gjf_jar_name)
    · rw [jarCandidates, List.find?_cons_of_pos _ h1] at h
      simp at h
    · by_cases h2 : w.isFile (joinPath (joinPath pd "lib") gjf_jar_name)
      · rw [jarCandidates, List.find?_cons_of_neg _ (by simpa using h1),
          List.find?_cons_of_pos _ h2] at h
        simp at h
      · simp [resolveJar, h1, h2, hasDownload, isDownloadEvent]
  · intro h
    simp [resolveFixup, h, hasDownload]
  · intro h
    simp [resolveFixup, h, hasDownload, isDownloadEvent]

/-- Witness for `artifact_resolution_first_match`: in an environment
with every file present the first candidate wins with no download; in an
environment with no file present both resolutions download. -/
theorem artifact_resolution_first_match_witness :
    ((resolveJar wTest "/s" "/p").1 = joinPath "/s" gjf_jar_name ∧
      hasDownload (resolveJar wTest "/s" "/p").2 = false) ∧
    hasDownload (resolveJar wNone "/s" "/p").2 = true ∧
    ((resolveFixup wTest "/s").1 = fixup_py "/s" ∧
      hasDownload (resolveFixup wTest "/s").2 = false) ∧
    hasDownload (resolveFixup wNone "/s").2 = true :=
  ⟨(artifact_resolution_first_match wTest "/s" "/p"
      (joinPath "/s" gjf_jar_name)).1 rfl,
   (artifact_resolution_first_match wNone "/s" "/p" "x").2.1 rfl,
   (artifact_resolution_first_match wTest "/s" "/p" "x").2.2.1 rfl,
   (artifact_resolution_first_match wNone "/s" "/p" "x").2.2.2 rfl⟩

/-- A concrete environment where the only existing file is the fixup
script inside the sibling `lib` directory of `/plume/bin`. -/
def wLibOnly : World :=
  { isFile := fun p => p == joinPath (joinPath "/plume" "lib") "fixup-google-java-format.py",
    mode := fun _ => 0, formatterExit := 0, fixupExit := 0 }

/-- C7 counterexample: the claim says both artifacts are searched under
the script directory and then under the sibling `lib` directory before
any download.  But with the fixup script present exactly in the sibling
`lib` directory of script directory `/plume/bin`, resolution still
downloads it: the `lib` directory is never probed for the fixup script
(line 34 only tests `script_dir/fixup-google-java-format.py`). -/
theorem fixup_lib_probe_counterexample :
    wLibOnly.isFile
        (joinPath (joinPath "/plume" "lib") "fixup-google-java-format.py") = true ∧
      ¬ hasDownload (resolveFixup wLibOnly (joinPath "/plume" "bin")).2 = false := by
  decide

/-- C7 amended: the formatter jar is searched under the script directory
and then under the sibling `lib` directory before falling back to a
download into the script directory; the fixup script is searched only
under the script directory (the `lib` directory is not probed for it)
before falling back to a download into the script directory. -/
theorem artifact_search_layout (w : World) (sd pd : String) :
    (w.isFile (joinPath sd gjf_jar_name) = true →
      resolveJar w sd pd = (joinPath sd gjf_jar_name, [])) ∧
    (w.isFile (joinPath sd gjf_jar_name) = false →
      w.isFile (joinPath (joinPath pd "lib") gjf_jar_name) = true →
      resolveJar w sd pd = (joinPath (joinPath pd "lib") gjf_jar_name, [])) ∧
    (w.isFile (joinPath sd gjf_jar_name) = false →
      w.isFile (joinPath (joinPath pd "lib") gjf_jar_name) = false →
      resolveJar w sd pd =
        (joinPath sd gjf_jar_name,
         [Event.download gjfURL (joinPath sd gjf_jar_name)])) ∧
    (w.isFile (fixup_py sd) = true → resolveFixup w sd = (fixup_py sd, [])) ∧
    (w.isFile (fixup_py sd) = false →
      (resolveFixup w sd).1 = fixup_py sd ∧
        Event.download fixupURL (fixup_py sd) ∈ (resolveFixup w sd).2) := by
  refine ⟨?_, ?_, ?_, ?_, ?_⟩
  · intro h1
    simp [resolveJar, h1]
  · intro h1 h2
    simp [resolveJar, h1, h2]
  · intro h1 h2
    simp [resolveJar, h1, h2]
  · intro h
    simp [resolveFixup, h]
  · intro h
    simp [resolveFixup, h]

/-- Witness for `artifact_search_layout`: with no file present, the jar
resolves to a download into the script directory and the fixup script is
downloaded to the script directory. -/
theorem artifact_search_layout_witness :
    resolveJar wNone "/s" "/p" =
      (joinPath "/s" gjf_jar_name,
       [Event.download gjfURL (joinPath "/s" gjf_jar_name)]) ∧
    Event.download fixupURL (fixup_py "/s") ∈ (resolveFixup wNone "/s").2 :=
  ⟨(artifact_search_layout wNone "/s" "/p").2.2.1 rfl rfl,
   ((artifact_search_layout wNone "/s" "/p").2.2.2.2 rfl).2⟩

theorem setExecBits_eq (m : Nat) : setExecBits m = m ||| 73 := by
  have h : (64 : Nat) ||| (8 ||| 1) = 73 := by decide
  calc setExecBits m = m ||| 64 ||| 8 ||| 1 := rfl
    _ = (m ||| 64) ||| (8 ||| 1) := by rw [Nat.or_assoc]
    _ = m ||| (64 ||| (8 ||| 1)) := by rw [Nat.or_assoc]
    _ = m ||| 73 := by rw [h]

theorem testBit_execMask (i : Nat) :
    Nat.testBit 73 i = (decide (i = 0) || decide (i = 3) || decide (i = 6)) := by
  rcases Nat.lt_or_ge i 7 with hlt | hge
  · interval_cases i <;> decide
  · have h1 : Nat.testBit 73 i = false := by
      refine Nat.testBit_eq_false_of_lt ?_
      calc (73 : Nat) < 2 ^ 7 := by norm_num
        _ ≤ 2 ^ i := Nat.pow_le_pow_right (by norm_num) hge
    have h0 : ¬ (i = 0) := by omega
    have h3 : ¬ (i = 3) := by omega
    have h6 : ¬ (i = 6) := by omega
    simp [h1, h0, h3, h6]

/-- C8: when the fixup script is absent and hence downloaded, the driver
chmods it to `st_mode | S_IXUSR | S_IXGRP | S_IXOTH`: the three execute
bits (owner bit 6, group bit 3, other bit 0) are set in the new mode,
and every other bit of the new mode equals the corresponding bit of the
old mode. -/
theorem chmod_sets_exec_bits (w : World) (sd : String) (m i : Nat)
    (habsent : w.isFile (fixup_py sd) = false) :
    Event.chmod (fixup_py sd) (setExecBits (w.mode (fixup_py sd))) ∈
        (resolveFixup w sd).2 ∧
      (setExecBits m).testBit 6 = true ∧
      (setExecBits m).testBit 3 = true ∧
      (setExecBits m).testBit 0 = true ∧
      (i ≠ 0 → i ≠ 3 → i ≠ 6 → (setExecBits m).testBit i = m.testBit i) := by
  refine ⟨by simp [resolveFixup, habsent], ?_, ?_, ?_, ?_⟩
  · rw [setExecBits_eq, Nat.testBit_lor, testBit_execMask]
    simp
  · rw [setExecBits_eq, Nat.testBit_lor, testBit_execMask]
    simp
  · rw [setExecBits_eq, Nat.testBit_lor, testBit_execMask]
    simp
  · intro h0 h3 h6
    rw [setExecBits_eq, Nat.testBit_lor, testBit_execMask]
    simp [h0, h3, h6]

/-- Witness for `chmod_sets_exec_bits` at a concrete environment, old
mode 420 (octal 0644) and bit 7. -/
theorem chmod_sets_exec_bits_witness :
    Event.chmod (fixup_py "/s") (setExecBits (wNone.mode (fixup_py "/s"))) ∈
        (resolveFixup wNone "/s").2 ∧
      (setExecBits 420).testBit 6 = true ∧
      (setExecBits 420).testBit 3 = true ∧
      (setExecBits 420).testBit 0 = true ∧
      (setExecBits 420).testBit 7 = (420 : Nat).testBit 7 := by
  have h := chmod_sets_exec_bits wNone "/s" 420 7 rfl
  exact ⟨h.1, h.2.1, h.2.2.1, h.2.2.2.1,
    h.2.2.2.2 (by decide) (by decide) (by decide)⟩

/-- C9: the filter keeps exactly the arguments that do not begin with
the two-character `--`; an argument beginning with a single `-` such as
`-h` is not treated as a flag, survives filtering, and is passed to the
fixup subprocess as if it were a file name. -/
theorem single_dash_not_flag (w : World) (sd pd : String) (xs : List String)
    (a : String) :
    (a ∈ filterFiles xs ↔ a ∈ xs ∧ pyStartswith a "--" = false) ∧
      pyStartswith "-h" "--" = false ∧
      filterFiles ["-h"] = ["-h"] ∧
      Event.call [fixup_py sd, "-h"] ∈ (drive w sd pd ["-h"]).2 := by
  refine ⟨?_, by decide, by decide, ?_⟩
  · simp [filterFiles, List.mem_filter]
  · have hh : filterFiles ["-h"] = ["-h"] := by decide
    by_cases hf : w.fixupExit = 0
    · simp [drive, hh, hf, resolveFixup_fst]
    · simp [drive, hh, hf, resolveFixup_fst]

/-- C10: artifact resolution, downloads included, happens before the
argument-count check: with zero arguments the driver still exits 1, its
trace is exactly the resolution events followed by the usage message,
and when the fixup script is absent that trace contains a download even
though the driver exits 1. -/
theorem resolution_precedes_usage_check (w : World) (sd pd : String) :
    (drive w sd pd []).1 = 1 ∧
      (drive w sd pd []).2 =
        (resolveJar w sd pd).2 ++ (resolveFixup w sd).2 ++ [Event.msg usageMsg] ∧
      (w.isFile (fixup_py sd) = false →
        hasDownload (drive w sd pd []).2 = true) := by
  refine ⟨by simp [drive], by simp [drive], ?_⟩
  intro h
  have htrace : (drive w sd pd []).2 =
      (resolveJar w sd pd).2 ++ (resolveFixup w sd).2 ++ [Event.msg usageMsg] := by
    simp [drive]
  rw [htrace]
  unfold hasDownload
  rw [List.any_append, List.any_append]
  have hf : (resolveFixup w sd).2.any isDownloadEvent = true := by
    simp [resolveFixup, h, isDownloadEvent]
  rw [hf]
  simp

/-- Witness for `resolution_precedes_usage_check`: with no file present
and no arguments, the trace of the run contains a download. -/
theorem resolution_precedes_usage_check_witness :
    hasDownload (drive wNone "/s" "/p" []).2 = true :=
  (resolution_precedes_usage_check wNone "/s" "/p").2.2 rfl
